import Mathlib

set_option maxRecDepth 100000

/-!
Verification of the NeuraMorphosis-Chat repository.

The definitions below are a shallow embedding of the TypeScript sources:

* JavaScript strings are Lean `String`s; the string algorithms the code relies
  on (`trim`, `trimStart`, `split(' ')`, `includes`, `indexOf`, `startsWith`,
  `slice`/`join`) are re-implemented over `List Char` so that every theorem can
  be checked by evaluation.
* `localStorage` is modelled as a partial map from keys to strings; the
  persistence adapter (`src/services/localStorageService.ts`) becomes plain
  functions over that map, with `JSON.parse`/`JSON.stringify` kept abstract as
  decode/encode parameters (a thrown parse error is `none`).
* The backend gateway calls are kept abstract as an outcome parameter; the
  embedded functions describe exactly what the source does with each outcome.
* The chat turn of `App.handleSendMessage` (the stream reconciler) is embedded
  as a small transition system: one step per arriving chunk, plus steps for
  normal stream end, stream error, and a conversation switch happening while
  the stream is in flight.  JavaScript closure capture of `currentChatId` is
  modelled by the captured turn context.
-/

/-! ## JavaScript string operations over `List Char` -/

/-- Does the character list `s` start with the character list `p`? -/
def startsWithSeq : List Char → List Char → Bool
  | _, [] => true
  | [], _ :: _ => false
  | a :: s, b :: p => a = b && startsWithSeq s p

/-- Index of the first occurrence of `pat` in `s`, as JavaScript
`String.prototype.indexOf` (with `none` for `-1`). -/
def idxOfSeq (s pat : List Char) : Option Nat :=
  if startsWithSeq s pat then some 0
  else match s with
    | [] => none
    | _ :: t => (idxOfSeq t pat).map (· + 1)

/-- JavaScript `String.prototype.split(' ')` (single-space separator): empty
fields between consecutive separators are kept and `"".split(' ')` is `[""]`. -/
def splitOnSpace : List Char → List (List Char)
  | [] => [[]]
  | a :: t =>
    let r := splitOnSpace t
    if a = ' ' then [] :: r
    else match r with
      | h :: rs => (a :: h) :: rs
      | [] => [[a]]

/-- JavaScript `Array.prototype.join(' ')` on a list of words. -/
def joinWithSpace : List (List Char) → List Char
  | [] => []
  | [w] => w
  | w :: ws => w ++ ' ' :: joinWithSpace ws

/-- JavaScript `String.prototype.trim`. -/
def jsTrimSeq (s : List Char) : List Char :=
  ((s.dropWhile Char.isWhitespace).reverse.dropWhile Char.isWhitespace).reverse

/-- JavaScript `String.prototype.trim` on `String`. -/
def jsTrim (s : String) : String := String.mk (jsTrimSeq s.data)

/-- JavaScript `String.prototype.trimStart` on `String`. -/
def jsTrimStart (s : String) : String := String.mk (s.data.dropWhile Char.isWhitespace)

/-- JavaScript `String.prototype.includes` on `String`. -/
def strIncludes (s pat : String) : Bool := (idxOfSeq s.data pat.data).isSome

/-- JavaScript `s.substring(s.indexOf(pat) + pat.length)`: everything after the
first occurrence of `pat` (the callers only use it when `pat` occurs). -/
def strAfterFirst (s pat : String) : String :=
  match idxOfSeq s.data pat.data with
  | some i => String.mk (s.data.drop (i + pat.data.length))
  | none => s

/-- JavaScript `String.prototype.startsWith` on `String`. -/
def strStartsWith (s pat : String) : Bool := startsWithSeq s.data pat.data

/-- ASCII lower-casing, as `String.prototype.toLowerCase` on the ASCII titles
the code manipulates. -/
def lowerAsciiChar (c : Char) : Char :=
  if 'A' ≤ c ∧ c ≤ 'Z' then Char.ofNat (c.toNat + 32) else c

/-- JavaScript `String.prototype.toLowerCase` on `String` (ASCII range). -/
def strLowerAscii (s : String) : String := String.mk (s.data.map lowerAsciiChar)

/-- JavaScript truthiness-based defaulting `value || dflt` for an optional
string: `null`/`undefined` and the empty string both fall back to `dflt`. -/
def jsOrElse (o : Option String) (dflt : String) : String :=
  match o with
  | none => dflt
  | some s => if s = "" then dflt else s

/-! ## Data model (`types.ts`) -/

/-- Message author, `Sender` in `types.ts`. -/
inductive Sender
  | user
  | ai
  deriving DecidableEq, Repr

/-- Thinking metadata attached to an assistant message, `ThinkingDetails` in
`types.ts`. -/
structure ThinkingDetails where
  enabled : Bool
  budget : Option Int
  modelUsed : Option String
  reasoningSupportedByModel : Bool
  deriving DecidableEq, Repr

/-- One chat message, `ChatMessageContent` in `types.ts`.  Optional fields are
`Option` so that `undefined` stays distinguishable from `false`. -/
structure ChatMessageContent where
  id : String
  text : String
  sender : Sender
  isStreaming : Option Bool := none
  isError : Option Bool := none
  thinkingDetails : Option ThinkingDetails := none
  deriving DecidableEq, Repr

/-- One stored conversation, `StoredChat` in `types.ts`.  The optional counter
`aiMessagesSinceLastTitleUpdate` is a `Nat` with the source's `|| 0` default
folded in. -/
structure StoredChat where
  id : String
  title : String
  createdAt : String
  messages : List ChatMessageContent
  aiMessagesSinceLastTitleUpdate : Nat := 0
  deriving DecidableEq, Repr

/-- Role of a history item on the wire, from `ChatMessageHistoryItem`. -/
inductive HistoryRole
  | user
  | model
  deriving DecidableEq, Repr

/-- Wire history item, `ChatMessageHistoryItem` in `types.ts`.  The messages
the embedded code builds only ever carry text parts. -/
structure ChatMessageHistoryItem where
  role : HistoryRole
  parts : List String
  deriving DecidableEq, Repr

/-! ## Persistence adapter (`src/services/localStorageService.ts`)

`localStorage` is a key-value map; `Store` models it as a function from keys
to optionally-present string values. -/

/-- The browser `localStorage` contents. -/
def Store : Type := String → Option String

/-- Storage with no keys set. -/
def emptyStore : Store := fun _ => none

/-- `localStorage.getItem`. -/
def getItem (s : Store) (key : String) : Option String := s key

/-- `localStorage.setItem`. -/
def setItem (s : Store) (key value : String) : Store :=
  fun k => if k = key then some value else s k

/-- `localStorage.removeItem`. -/
def removeItem (s : Store) (key : String) : Store :=
  fun k => if k = key then none else s k

def ALL_CHATS_KEY : String := "neuramorphosis_allChats"
def ACTIVE_CHAT_ID_KEY : String := "neuramorphosis_activeChatId"
def CUSTOM_CSS_KEY : String := "neuramorphosis_customCSS"
def BASE_THEME_KEY : String := "neuramorphosis_baseTheme"
def ACCENT_THEME_KEY : String := "neuramorphosis_accentTheme"
def TARGET_LANGUAGE_KEY : String := "neuramorphosis_targetLanguage"

/-- `saveChats`: serializes the chat list under `ALL_CHATS_KEY`.  JSON
serialization is abstracted by `encode`. -/
def saveChats (s : Store) (encode : List StoredChat → String) (chats : List StoredChat) : Store :=
  setItem s ALL_CHATS_KEY (encode chats)

/-- `loadChats`: reads `ALL_CHATS_KEY`; a missing key or a falsy (empty)
value yields `[]`, and a `JSON.parse` exception (`decode` returning `none`)
is caught and also yields `[]`. -/
def loadChats (s : Store) (decode : String → Option (List StoredChat)) : List StoredChat :=
  match getItem s ALL_CHATS_KEY with
  | none => []
  | some chatsJson => if chatsJson = "" then [] else (decode chatsJson).getD []

/-- `saveActiveChatId`: a truthy id is stored, `null` (or `""`) removes the key. -/
def saveActiveChatId (s : Store) (id : Option String) : Store :=
  match id with
  | some v => if v = "" then removeItem s ACTIVE_CHAT_ID_KEY else setItem s ACTIVE_CHAT_ID_KEY v
  | none => removeItem s ACTIVE_CHAT_ID_KEY

/-- `loadActiveChatId`. -/
def loadActiveChatId (s : Store) : Option String := getItem s ACTIVE_CHAT_ID_KEY

/-- `saveCustomCSS`. -/
def saveCustomCSS (s : Store) (css : String) : Store := setItem s CUSTOM_CSS_KEY css

/-- `loadCustomCSS`: `css || ""`. -/
def loadCustomCSS (s : Store) : String := jsOrElse (getItem s CUSTOM_CSS_KEY) ""

/-- `saveBaseTheme`. -/
def saveBaseTheme (s : Store) (theme : String) : Store := setItem s BASE_THEME_KEY theme

/-- `loadBaseTheme`: returns the raw stored value (cast, not validated). -/
def loadBaseTheme (s : Store) : Option String := getItem s BASE_THEME_KEY

/-- `saveAccentTheme`. -/
def saveAccentTheme (s : Store) (theme : String) : Store := setItem s ACCENT_THEME_KEY theme

/-- `loadAccentTheme`. -/
def loadAccentTheme (s : Store) : Option String := getItem s ACCENT_THEME_KEY

/-- `saveTargetLanguage`. -/
def saveTargetLanguage (s : Store) (languageCode : String) : Store :=
  setItem s TARGET_LANGUAGE_KEY languageCode

/-- `loadTargetLanguage`. -/
def loadTargetLanguage (s : Store) : Option String := getItem s TARGET_LANGUAGE_KEY

/-! ## Preference initialization in `App` -/

def DEFAULT_CHAT_MODEL : String := "gemini-2.5-flash"

def DEFAULT_TARGET_LANGUAGE : String := "none"

/-- The preference-like pieces of `App` state and their initializers (the
`useState` initial values in `App.tsx`): `thinkingBudget` and
`currentChatModel` start from constants, the four remaining preferences are
read from storage with `||`-defaults. -/
structure AppInitialPrefs where
  thinkingBudget : Int
  currentChatModel : String
  baseTheme : String
  accentTheme : String
  customCSS : String
  targetLanguage : String
  deriving DecidableEq, Repr

/-- Initial preference state of `App` as a function of storage contents. -/
def appInitialPrefs (s : Store) : AppInitialPrefs :=
  { thinkingBudget := 0
    currentChatModel := DEFAULT_CHAT_MODEL
    baseTheme := jsOrElse (loadBaseTheme s) "dark"
    accentTheme := jsOrElse (loadAccentTheme s) "default"
    customCSS := loadCustomCSS s
    targetLanguage := jsOrElse (loadTargetLanguage s) DEFAULT_TARGET_LANGUAGE }

/-- A store exercising every save operation the persistence adapter offers for
scalar preferences, with pairwise distinct values. -/
def fullySavedStore : Store :=
  saveTargetLanguage
    (saveCustomCSS (saveAccentTheme (saveBaseTheme emptyStore "light") "blue") "my-css")
    "fr"

/-! ## Backend gateway and session manager (`src/services/geminiService.ts`) -/

def AVAILABLE_CHAT_MODELS : List String :=
  ["gemini-2.5-flash", "gemini-2.5-pro", "gemini-2.5-flash-lite"]

def THINKING_CONFIG_SUPPORTED_MODELS : List String := ["gemini-2.5-flash"]

/-- `getFriendlyModelName`: the `MODEL_FRIENDLY_NAMES` record lookup with the
model id itself as fallback. -/
def getFriendlyModelName (modelId : String) : String :=
  if modelId = "gemini-2.5-flash" then "Flash (Fast & Efficient)"
  else if modelId = "gemini-2.5-pro" then "Pro (Advanced & Powerful)"
  else if modelId = "gemini-2.5-flash-lite" then "Flash Lite (Ultra Fast)"
  else modelId

/-- The system instruction template built inside `initializeChatSession` and
`sendMessageToChatStream`. -/
def chatSystemInstruction (friendlyModelName : String) : String :=
  "You are NeuraMorphosis AI, a helpful and independent text-based chat assistant. You are currently operating as the '"
    ++ friendlyModelName
    ++ "' model configuration.\nProvide helpful text-based responses.\nIf asked about your capabilities, mention you are a text-based assistant.\nRespond in the language of the user's input if it is clear, otherwise default to English.\n"

/-- The request configuration object: system instruction plus the optional
`thinkingConfig.thinkingBudget` field. -/
structure ChatSessionConfig where
  systemInstruction : String
  thinkingConfig : Option Int
  deriving DecidableEq, Repr

/-- A created chat session (`ai.chats.create` result as far as the client's
configuration is concerned). -/
structure ChatSession where
  model : String
  config : ChatSessionConfig
  history : List ChatMessageHistoryItem
  deriving DecidableEq, Repr

/-- Module-level mutable state of `geminiService.ts`: the
`chatSessionInstance` singleton, plus an instrumentation counter of how many
times `ai.chats.create` has been invoked (the "rebuild work" observable). -/
structure GeminiServiceState where
  chatSessionInstance : Option ChatSession
  chatsCreateCalls : Nat
  deriving DecidableEq, Repr

/-- `initializeChatSession`: unknown model names are coerced to
`DEFAULT_CHAT_MODEL`; `thinkingConfig` is attached exactly when the model in
use is `gemini-2.5-flash` and a budget value was passed; a fresh session is
created unconditionally and replaces the singleton. -/
def initializeChatSession (st : GeminiServiceState) (modelName : String)
    (history : Option (List ChatMessageHistoryItem)) (thinkingBudgetUiValue : Option Int) :
    GeminiServiceState × ChatSession :=
  let friendlyModelName := getFriendlyModelName modelName
  let currentModelToUse :=
    if AVAILABLE_CHAT_MODELS.contains modelName then modelName else DEFAULT_CHAT_MODEL
  let chatConfig : ChatSessionConfig :=
    { systemInstruction := chatSystemInstruction friendlyModelName
      thinkingConfig :=
        if currentModelToUse = "gemini-2.5-flash" then thinkingBudgetUiValue else none }
  let session : ChatSession :=
    { model := currentModelToUse, config := chatConfig, history := history.getD [] }
  ({ chatSessionInstance := some session, chatsCreateCalls := st.chatsCreateCalls + 1 }, session)

/-- `resetChatSession`. -/
def resetChatSession (st : GeminiServiceState) : GeminiServiceState :=
  { st with chatSessionInstance := none }

/-- The body of the `/api/proxy` chat request built by the streaming gateway
`sendMessageToChatStream` of the proxy-based service module. -/
structure ChatProxyRequest where
  history : List ChatMessageHistoryItem
  messageParts : List String
  model : String
  config : ChatSessionConfig
  deriving DecidableEq, Repr

/-- `sendMessageToChatStream` (proxy-based module): builds the request payload
for one streamed turn; `thinkingConfig` is attached exactly when `model` is
`gemini-2.5-flash` (the budget argument is always present at this call site). -/
def sendMessageToChatStreamRequest (message : String) (history : List ChatMessageHistoryItem)
    (model : String) (thinkingBudget : Int) : ChatProxyRequest :=
  { history := history
    messageParts := [message]
    model := model
    config :=
      { systemInstruction := chatSystemInstruction (getFriendlyModelName model)
        thinkingConfig := if model = "gemini-2.5-flash" then some thinkingBudget else none } }

/-! ## Title generation (`generateChatTitleWithAI` and its fallback) -/

/-- `generateFallbackTitle`: first 4 space-separated fields of the first user
message's trimmed text, with `...` appended when there were more than 4;
`"Chat Conversation"` when there is no user message with truthy text. -/
def generateFallbackTitle (chatMessages : List ChatMessageContent) : String :=
  match chatMessages.find? (fun m => m.sender == Sender.user) with
  | some firstUserMsg =>
    if firstUserMsg.text = "" then "Chat Conversation"
    else
      let words := splitOnSpace (jsTrimSeq firstUserMsg.text.data)
      String.mk (joinWithSpace (words.take (min words.length 4)))
        ++ (if words.length > 4 then "..." else "")
  | none => "Chat Conversation"

/-- `mapAppMessagesToGeminiHistoryForTitle`: keeps user messages and those
assistant messages that are neither status lines nor the synthetic welcome. -/
def mapAppMessagesToGeminiHistoryForTitle (messages : List ChatMessageContent)
    (initialWelcomeTextBase : String) : List ChatMessageHistoryItem :=
  (messages.filter fun msg =>
      if msg.sender == Sender.user then true
      else
        msg.sender == Sender.ai
          && !(strStartsWith msg.text "AI is viewing the image")
          && !(strStartsWith msg.text "NeuraMorphosis AI is thinking deeply...")
          && !(strStartsWith msg.text initialWelcomeTextBase)).map
    fun msg =>
      { role := if msg.sender == Sender.user then HistoryRole.user else HistoryRole.model
        parts := [msg.text] }

/-- Outcome of the one-shot title request against the backend, abstracting the
network call in `generateChatTitleWithAI`. -/
inductive TitleOutcome
  | blocked
  | apiError (message : String)
  | ok (text : String)
  deriving DecidableEq, Repr

deriving instance DecidableEq for Except

/-- Result of `generateChatTitleWithAI`: the returned (or thrown) value plus
whether a backend request was issued. -/
structure TitleResult where
  result : Except String String
  backendCalled : Bool
  deriving DecidableEq, Repr

/-- The title-cleaning pipeline applied to a non-empty backend response:
trim, strip one leading and one trailing quote character, strip a leading
`Title:` prefix case-insensitively, cap at 7 space-separated words with an
ellipsis. -/
def cleanBackendTitle (responseText : String) : String :=
  let afterTrim := jsTrimSeq responseText.data
  let afterLeadQuote :=
    match afterTrim with
    | c :: t => if c = '"' ∨ c = '\'' then t else afterTrim
    | [] => afterTrim
  let afterQuotes :=
    match afterLeadQuote.reverse with
    | c :: t => if c = '"' ∨ c = '\'' then t.reverse else afterLeadQuote
    | [] => afterLeadQuote
  let afterTitleColon :=
    if strStartsWith (strLowerAscii (String.mk afterQuotes)) "title:" then
      jsTrimSeq (afterQuotes.drop "title:".data.length)
    else afterQuotes
  let wordsInTitle := splitOnSpace afterTitleColon
  if wordsInTitle.length > 7 then
    String.mk (joinWithSpace (wordsInTitle.take 7)) ++ "..."
  else String.mk afterTitleColon

/-- `generateChatTitleWithAI`: `initializeAI` throws when the API key is
absent; a null or empty message list yields `"New Chat"` before any request;
an empty filtered history, a blocked prompt, a thrown API error, an
empty/whitespace response and a response that cleans to the empty string all
resolve to the fallback title.  The `Bool` component records whether the
backend was called. -/
def generateChatTitleWithAI (apiKeyPresent : Bool)
    (chatMessages : Option (List ChatMessageContent)) (initialWelcomeTextBase : String)
    (outcome : TitleOutcome) : TitleResult :=
  if !apiKeyPresent then
    { result := Except.error "API_KEY environment variable not set. Please ensure it is configured."
      backendCalled := false }
  else
    match chatMessages with
    | none => { result := Except.ok "New Chat", backendCalled := false }
    | some msgs =>
      if msgs.length = 0 then { result := Except.ok "New Chat", backendCalled := false }
      else
        let historyForTitle := mapAppMessagesToGeminiHistoryForTitle msgs initialWelcomeTextBase
        if historyForTitle.length = 0 then
          { result := Except.ok (generateFallbackTitle msgs), backendCalled := false }
        else
          match outcome with
          | TitleOutcome.blocked =>
            { result := Except.ok (generateFallbackTitle msgs), backendCalled := true }
          | TitleOutcome.apiError _ =>
            { result := Except.ok (generateFallbackTitle msgs), backendCalled := true }
          | TitleOutcome.ok responseText =>
            if jsTrimSeq responseText.data ≠ [] then
              let cleanTitle := cleanBackendTitle responseText
              if cleanTitle = "" then
                { result := Except.ok (generateFallbackTitle msgs), backendCalled := true }
              else { result := Except.ok cleanTitle, backendCalled := true }
            else { result := Except.ok (generateFallbackTitle msgs), backendCalled := true }

/-! ## Summarization follow-up reconciler (`SummarizationEditorPage`) -/

def REPLACE_SUMMARY_COMMAND : String := "[replace_summary_with_new_text]"

/-- State driven by the `handleAskFollowUp` stream loop: the
`isReplacingSummaryRef` mode flag, the replacement flag shown to the UI, the
two accumulators and the summary text on display. -/
structure FollowUpState where
  isReplacingSummary : Bool
  didFollowUpActAsReplacement : Bool
  revisedSummaryAccumulator : String
  currentFollowUpTextAccumulator : String
  displayText : String
  deriving DecidableEq, Repr

/-- State at the top of `handleAskFollowUp`, before the first chunk. -/
def initialFollowUpState (currentSummary : String) : FollowUpState :=
  { isReplacingSummary := false
    didFollowUpActAsReplacement := false
    revisedSummaryAccumulator := ""
    currentFollowUpTextAccumulator := ""
    displayText := currentSummary }

/-- One iteration of the `for await` chunk loop in `handleAskFollowUp`:
falsy chunks are skipped; in normal mode a chunk containing the whole
command switches to replacement mode and keeps only the trimmed text after
the command; in replacement mode chunks extend the revised summary; otherwise
chunks extend the visible follow-up answer. -/
def followUpChunkStep (s : FollowUpState) (textChunk : String) : FollowUpState :=
  if textChunk = "" then s
  else if ¬s.isReplacingSummary ∧ strIncludes textChunk REPLACE_SUMMARY_COMMAND then
    let textAfterCommand := jsTrimStart (strAfterFirst textChunk REPLACE_SUMMARY_COMMAND)
    if textAfterCommand ≠ "" then
      { s with isReplacingSummary := true
               didFollowUpActAsReplacement := true
               revisedSummaryAccumulator := s.revisedSummaryAccumulator ++ textAfterCommand
               displayText := s.revisedSummaryAccumulator ++ textAfterCommand }
    else
      { s with isReplacingSummary := true, didFollowUpActAsReplacement := true }
  else if s.isReplacingSummary then
    { s with revisedSummaryAccumulator := s.revisedSummaryAccumulator ++ textChunk
             displayText := s.revisedSummaryAccumulator ++ textChunk }
  else
    { s with currentFollowUpTextAccumulator := s.currentFollowUpTextAccumulator ++ textChunk }

/-- The whole follow-up stream: fold the chunk loop over the deltas, then the
post-loop fixup clearing the display when a replacement produced no text. -/
def runFollowUp (currentSummary : String) (deltas : List String) : FollowUpState :=
  let s := deltas.foldl followUpChunkStep (initialFollowUpState currentSummary)
  if s.isReplacingSummary ∧ s.revisedSummaryAccumulator = "" then
    { s with displayText := "" }
  else s

/-! ## Chat turn reconciler (`App.handleSendMessage` and `switchChat`) -/

def INITIAL_AI_WELCOME_TEXT_BASE : String := "Hello! I'm NeuraMorphosis AI."

/-- `createAppInitialWelcomeText`. -/
def createAppInitialWelcomeText (modelIdForWelcome : String) : String :=
  INITIAL_AI_WELCOME_TEXT_BASE ++ " You are currently the '"
    ++ getFriendlyModelName modelIdForWelcome
    ++ "' model. How can I help you today? You can use **Markdown** for *formatting*! \n\nI am a text-based assistant."

/-- `createNewWelcomeMessage` (the id generated from `Date.now()` is a
parameter). -/
def createNewWelcomeMessage (id modelIdForWelcome : String) : ChatMessageContent :=
  { id := id
    text := createAppInitialWelcomeText modelIdForWelcome
    sender := Sender.ai
    isStreaming := some false }

/-- The `App` state the chat turn manipulates: the active message list, the
loading flag gating new turns, the banner error, the active conversation id
and the conversation store. -/
structure AppState where
  messages : List ChatMessageContent
  isLoading : Bool
  errorBanner : Option String
  currentChatId : Option String
  allChats : List StoredChat
  deriving DecidableEq, Repr

/-- The `isEffectivelyNewChat` memo: at most one message, which is either
absent or the synthetic assistant welcome, and no turn in flight. -/
def isEffectivelyNewChat (messages : List ChatMessageContent) (isLoading : Bool) : Bool :=
  decide (messages.length ≤ 1)
    && (match messages.head? with
        | none => true
        | some m => m.sender == Sender.ai && strStartsWith m.text INITIAL_AI_WELCOME_TEXT_BASE)
    && !isLoading

/-- `mkThinkingDetails`: the thinking metadata attached to the assistant
placeholder for thinking-capable models. -/
def mkThinkingDetails (model : String) (thinkingBudget : Int) : Option ThinkingDetails :=
  if THINKING_CONFIG_SUPPORTED_MODELS.contains model then
    some { enabled := thinkingBudget > 0
           budget := some thinkingBudget
           modelUsed := some model
           reasoningSupportedByModel := true }
  else none

/-- The values `handleSendMessage` closes over for the duration of the
asynchronous turn: the captured `currentChatId`, the generated assistant
message id, the snapshot `updatedMessagesWithUser` and the thinking metadata.
React state read later through `setX(prev => ...)` is *not* captured; the
captured fields are exactly the local `const`s of the source function. -/
structure TurnCtx where
  inputText : String
  capturedChatId : Option String
  aiResponseId : String
  turnMessages : List ChatMessageContent
  thinkingDetails : Option ThinkingDetails
  deriving DecidableEq, Repr

/-- In-flight turn: current app state, the `accumulatedRegularText` local,
whether the turn already terminated, and the trace of `(text, isStreaming)`
values written to the assistant message (the emitted updates). -/
structure TurnRun where
  app : AppState
  accumulatedRegularText : String
  finished : Bool
  updates : List (String × Bool)
  deriving DecidableEq, Repr

/-- The functional `setMessages` update targeting the turn's assistant
message by id. -/
def setAiMessage (msgs : List ChatMessageContent) (aiId : String)
    (f : ChatMessageContent → ChatMessageContent) : List ChatMessageContent :=
  msgs.map fun m => if m.id = aiId then f m else m

/-- The fresh `finalAiMessage` record built after a normal stream end. -/
def finalAssistantMessage (ctx : TurnCtx) (acc : String) : ChatMessageContent :=
  { id := ctx.aiResponseId
    text := acc
    sender := Sender.ai
    isStreaming := some false
    thinkingDetails := ctx.thinkingDetails }

/-- The synchronous prefix of `handleSendMessage`, up to the point where the
stream is opened: the guard on empty input and `isLoading`, the user-message
append, the store update for the active conversation and the assistant
placeholder.  The two `Date.now()`-derived ids arrive as parameters. -/
def startTurn (st : AppState) (inputText userId aiId model : String) (thinkingBudget : Int) :
    Option (TurnCtx × TurnRun) :=
  if jsTrimSeq inputText.data = [] ∨ st.isLoading then none
  else
    let userMessage : ChatMessageContent := { id := userId, text := inputText, sender := Sender.user }
    let baseMessagesForThisTurn :=
      if isEffectivelyNewChat st.messages st.isLoading then [] else st.messages
    let updatedMessagesWithUser := baseMessagesForThisTurn ++ [userMessage]
    let allChats1 :=
      match st.currentChatId with
      | some cid =>
        st.allChats.map fun ch =>
          if ch.id = cid then { ch with messages := updatedMessagesWithUser } else ch
      | none => st.allChats
    let thinking := mkThinkingDetails model thinkingBudget
    let aiMessage : ChatMessageContent :=
      { id := aiId, text := "", sender := Sender.ai, isStreaming := some true
        thinkingDetails := thinking }
    some
      ({ inputText := inputText
         capturedChatId := st.currentChatId
         aiResponseId := aiId
         turnMessages := updatedMessagesWithUser
         thinkingDetails := thinking },
       { app :=
           { messages := updatedMessagesWithUser ++ [aiMessage]
             isLoading := true
             errorBanner := none
             currentChatId := st.currentChatId
             allChats := allChats1 }
         accumulatedRegularText := ""
         finished := false
         updates := [("", true)] })

/-- Events interleaved with the in-flight turn: a stream chunk, normal stream
end, a stream error, and the user switching the active conversation. -/
inductive TurnEvent
  | chunk (text : String)
  | streamEnd
  | streamError (message : String)
  | switchChat (chatId : String)
  deriving DecidableEq, Repr

/-- One event applied to the in-flight turn.

* `chunk`: falsy chunk texts are skipped; otherwise the text is appended to
  `accumulatedRegularText` and the assistant message's text is rewritten
  (keyed by id, so a no-op if the active list no longer holds that id).
* `streamEnd`: the `finally` block turns off the streaming flag, the fresh
  `finalAiMessage` record then replaces the assistant message, and the store
  record of the *captured* conversation id receives the turn snapshot plus
  the final message together with an incremented title counter.
* `streamError`: the `catch` block writes the error text and flags onto the
  assistant message and raises the banner; the `finally` block still runs
  after the early `return` and rewrites the text back to the accumulated
  partial content; the store is not touched.
* `switchChat`: loads the target conversation into the active list and clears
  the banner and loading flag (only when the target exists). -/
def turnStep (ctx : TurnCtx) (r : TurnRun) : TurnEvent → TurnRun
  | TurnEvent.chunk t =>
    if r.finished then r
    else if t = "" then r
    else
      let acc := r.accumulatedRegularText ++ t
      { r with
        accumulatedRegularText := acc
        app :=
          { r.app with
            messages := setAiMessage r.app.messages ctx.aiResponseId fun m => { m with text := acc } }
        updates := r.updates ++ [(acc, true)] }
  | TurnEvent.streamEnd =>
    if r.finished then r
    else
      let acc := r.accumulatedRegularText
      let msgs1 := setAiMessage r.app.messages ctx.aiResponseId fun m =>
        { m with text := acc, isStreaming := some false }
      let finalMsg := finalAssistantMessage ctx acc
      let msgs2 := setAiMessage msgs1 ctx.aiResponseId fun _ => finalMsg
      let chats2 :=
        match ctx.capturedChatId with
        | some cid =>
          r.app.allChats.map fun ch =>
            if ch.id = cid then
              { ch with
                messages := ctx.turnMessages.filter (fun m => m.id ≠ ctx.aiResponseId) ++ [finalMsg]
                aiMessagesSinceLastTitleUpdate := ch.aiMessagesSinceLastTitleUpdate + 1 }
            else ch
        | none => r.app.allChats
      { r with
        finished := true
        app := { r.app with messages := msgs2, allChats := chats2, isLoading := false }
        updates := r.updates ++ [(acc, false), (acc, false)] }
  | TurnEvent.streamError e =>
    if r.finished then r
    else
      let errorMessage := "Error: " ++ (if e = "" then "Failed to get response from AI." else e)
      let msgs1 := setAiMessage r.app.messages ctx.aiResponseId fun m =>
        { m with text := errorMessage, isError := some true, isStreaming := some false }
      let msgs2 := setAiMessage msgs1 ctx.aiResponseId fun m =>
        { m with text := r.accumulatedRegularText, isStreaming := some false }
      { r with
        finished := true
        app := { r.app with messages := msgs2, errorBanner := some errorMessage, isLoading := false }
        updates := r.updates ++ [(errorMessage, false), (r.accumulatedRegularText, false)] }
  | TurnEvent.switchChat chatId =>
    match r.app.allChats.find? (fun ch => ch.id == chatId) with
    | some chatToLoad =>
      { r with
        app :=
          { r.app with
            messages := chatToLoad.messages
            currentChatId := some chatId
            errorBanner := none
            isLoading := false } }
    | none => r

/-- Fold a list of events over the in-flight turn. -/
def runTurn (ctx : TurnCtx) (r : TurnRun) (events : List TurnEvent) : TurnRun :=
  events.foldl (turnStep ctx) r

/-! ## Concrete scenario used by the stream-reconciliation claims -/

/-- Conversation A, freshly created: only the synthetic welcome message. -/
def chatA : StoredChat :=
  { id := "A", title := "New Chat", createdAt := "t0"
    messages := [createNewWelcomeMessage "ai-welcome-A" DEFAULT_CHAT_MODEL] }

/-- Conversation B, an older conversation the user can switch to. -/
def chatB : StoredChat :=
  { id := "B", title := "Chat B", createdAt := "t1"
    messages := [createNewWelcomeMessage "ai-welcome-B" DEFAULT_CHAT_MODEL,
                 { id := "user-B1", text := "hi from B", sender := Sender.user }] }

/-- App state with conversation A active and no turn in flight. -/
def appStateA : AppState :=
  { messages := chatA.messages
    isLoading := false
    errorBanner := none
    currentChatId := some "A"
    allChats := [chatA, chatB] }

/-- The user message appended by the scenario turn. -/
def userMsgA : ChatMessageContent := { id := "user-1", text := "Hi there", sender := Sender.user }

/-- Thinking metadata of the scenario turn (default model, budget 0). -/
def thinkingA : Option ThinkingDetails := mkThinkingDetails DEFAULT_CHAT_MODEL 0

/-- Captured context of the scenario turn. -/
def ctxA : TurnCtx :=
  { inputText := "Hi there"
    capturedChatId := some "A"
    aiResponseId := "ai-1"
    turnMessages := [userMsgA]
    thinkingDetails := thinkingA }

/-- In-flight turn state right after the synchronous prefix of
`handleSendMessage` (user message committed, assistant placeholder appended). -/
def runA0 : TurnRun :=
  { app :=
      { messages := [userMsgA,
                     { id := "ai-1", text := "", sender := Sender.ai, isStreaming := some true
                       thinkingDetails := thinkingA }]
        isLoading := true
        errorBanner := none
        currentChatId := some "A"
        allChats := [{ chatA with messages := [userMsgA] }, chatB] }
    accumulatedRegularText := ""
    finished := false
    updates := [("", true)] }

/-- Scenario after one chunk and a switch to conversation B while the stream
is still open. -/
def runC2switch : TurnRun :=
  runTurn ctxA runA0 [TurnEvent.chunk "Hel", TurnEvent.switchChat "B"]

/-- Scenario continued: a late chunk and the end of the abandoned stream. -/
def runC2full : TurnRun :=
  runTurn ctxA runA0
    [TurnEvent.chunk "Hel", TurnEvent.switchChat "B", TurnEvent.chunk "lo", TurnEvent.streamEnd]

/-- Scenario of the stream-fold claim: the three deltas and a normal end. -/
def runC3 : TurnRun :=
  runTurn ctxA runA0
    [TurnEvent.chunk "Hel", TurnEvent.chunk "lo ", TurnEvent.chunk "world", TurnEvent.streamEnd]

/-- Scenario of the error claim: one chunk, then a stream error. -/
def runC4 : TurnRun :=
  runTurn ctxA runA0 [TurnEvent.chunk "Hel", TurnEvent.streamError "boom"]

/-- First user message of the title-fallback scenario. -/
def tripMsg : ChatMessageContent :=
  { id := "u1", text := "Plan my trip to Rome", sender := Sender.user }

/-- Storage whose chat-list key holds a string `JSON.parse` rejects. -/
def badJsonStore : Store := setItem emptyStore ALL_CHATS_KEY "not-json"

/-- A decoder on which `JSON.parse` always throws. -/
def failDecode : String → Option (List StoredChat) := fun _ => none

/-- Initial module state of the gateway service: no session, no create calls. -/
def gsInitial : GeminiServiceState := { chatSessionInstance := none, chatsCreateCalls := 0 }

/-! ## Theorems -/

/-- Validation: the hand-written scenario context and run state are exactly
what `startTurn` produces on `appStateA`. -/
theorem startTurn_appStateA :
    startTurn appStateA "Hi there" "user-1" "ai-1" DEFAULT_CHAT_MODEL 0 = some (ctxA, runA0) := by
  decide

/-- C1: at the failing input — the control marker split across the two deltas
`["answer: [replace_summary_with_", "new_text]\nNew body"]` — the follow-up
reconciler never enters replacement mode: both deltas are appended to the
ordinary follow-up answer (whose concatenation visibly contains the whole
marker) and the displayed summary is left untouched, instead of the claimed
`REPLACING` mode with replacement text `"New body"`. -/
theorem followUp_marker_split_across_chunks_not_detected :
    runFollowUp "Original summary." ["answer: [replace_summary_with_", "new_text]\nNew body"] =
      { isReplacingSummary := false
        didFollowUpActAsReplacement := false
        revisedSummaryAccumulator := ""
        currentFollowUpTextAccumulator := "answer: [replace_summary_with_new_text]\nNew body"
        displayText := "Original summary." } := by
  decide

/-- Companion fact: when the whole marker arrives inside one delta, the
reconciler does enter replacement mode and the replacement text is the
trimmed remainder after the marker. -/
theorem followUp_marker_in_single_chunk_detected :
    runFollowUp "Original summary." ["answer: [replace_summary_with_new_text]\nNew body"] =
      { isReplacingSummary := true
        didFollowUpActAsReplacement := true
        revisedSummaryAccumulator := "New body"
        currentFollowUpTextAccumulator := ""
        displayText := "New body" } := by
  decide

/-- Helper: rewriting the assistant message is a no-op on a message list that
does not contain the assistant message id. -/
theorem setAiMessage_of_fresh (msgs : List ChatMessageContent) (aiId : String)
    (f : ChatMessageContent → ChatMessageContent) (h : ∀ m ∈ msgs, m.id ≠ aiId) :
    setAiMessage msgs aiId f = msgs := by
  induction msgs with
  | nil => rfl
  | cons a t ih =>
    have ha : a.id ≠ aiId := h a (List.mem_cons_self a t)
    have ht : t.map (fun m => if m.id = aiId then f m else m) = t :=
      ih fun m hm => h m (List.mem_cons_of_mem a hm)
    simp only [setAiMessage, List.map_cons] at *
    rw [if_neg ha, ht]

/-- Helper: chunk events applied to an in-flight, unfinished turn whose
assistant message id is absent from the active list leave the whole app state
unchanged and the turn unfinished. -/
theorem runTurn_chunks_fresh (ctx : TurnCtx) (ds : List String) :
    ∀ r : TurnRun, (∀ m ∈ r.app.messages, m.id ≠ ctx.aiResponseId) → r.finished = false →
      (runTurn ctx r (ds.map TurnEvent.chunk)).app = r.app ∧
      (runTurn ctx r (ds.map TurnEvent.chunk)).finished = false := by
  induction ds with
  | nil => intro r _ hf; exact ⟨rfl, hf⟩
  | cons d ds ih =>
    intro r h hf
    have hstep : (turnStep ctx r (TurnEvent.chunk d)).app = r.app ∧
        (turnStep ctx r (TurnEvent.chunk d)).finished = false := by
      by_cases hd : d = ""
      · simp [turnStep, hf, hd]
      · simp [turnStep, hf, hd, setAiMessage_of_fresh _ _ _ h]
    have h2 : ∀ m ∈ (turnStep ctx r (TurnEvent.chunk d)).app.messages, m.id ≠ ctx.aiResponseId := by
      rw [hstep.1]; exact h
    have hrest := ih (turnStep ctx r (TurnEvent.chunk d)) h2 hstep.2
    simp only [runTurn, List.map_cons, List.foldl_cons] at hrest ⊢
    exact ⟨hrest.1.trans hstep.1, hrest.2⟩

/-- C2 (amended): once the turn's assistant message id is absent from the
active message list (as after switching to a conversation that does not
contain it), every further chunk leaves the entire app state — visible list
and conversation store — unchanged; the end-of-stream finalization still
leaves the visible list unchanged, but commits the turn snapshot plus the
completed assistant message (carrying all accumulated chunks) to the stored
record of the conversation id captured at turn start, incrementing its title
counter. -/
theorem staleTurn_deltas_suppressed_finalization_commits
    (ctx : TurnCtx) (r : TurnRun) (ds : List String) (a : String)
    (hcid : ctx.capturedChatId = some a)
    (hfresh : ∀ m ∈ r.app.messages, m.id ≠ ctx.aiResponseId)
    (hfin : r.finished = false) :
    (runTurn ctx r (ds.map TurnEvent.chunk)).app = r.app ∧
    (turnStep ctx (runTurn ctx r (ds.map TurnEvent.chunk)) TurnEvent.streamEnd).app.messages =
      r.app.messages ∧
    (turnStep ctx (runTurn ctx r (ds.map TurnEvent.chunk)) TurnEvent.streamEnd).app.allChats =
      r.app.allChats.map (fun ch =>
        if ch.id = a then
          { ch with
            messages := ctx.turnMessages.filter (fun m => m.id ≠ ctx.aiResponseId) ++
              [finalAssistantMessage ctx
                (runTurn ctx r (ds.map TurnEvent.chunk)).accumulatedRegularText]
            aiMessagesSinceLastTitleUpdate := ch.aiMessagesSinceLastTitleUpdate + 1 }
        else ch) := by
  obtain ⟨happ, hfin2⟩ := runTurn_chunks_fresh ctx ds r hfresh hfin
  refine ⟨happ, ?_, ?_⟩
  · simp only [turnStep, hfin2, Bool.false_eq_true, if_false]
    rw [happ, setAiMessage_of_fresh _ _ _ hfresh, setAiMessage_of_fresh _ _ _ hfresh]
  · simp only [turnStep, hfin2, Bool.false_eq_true, if_false, hcid]
    rw [happ]

/-- C2 (counterexample): in the concrete interleaving — stream started for
conversation A, chunk `"Hel"`, switch to conversation B, late chunk `"lo"`,
stream end — conversation A's stored messages right after the switch are just
the turn's user message, but after the end-of-stream finalization they also
contain the completed assistant message: the finalization changed
conversation A's stored messages after the switch, contradicting the claim. -/
theorem staleTurn_finalization_writes_chatA_counterexample :
    (runC2switch.app.allChats.find? fun ch => ch.id == "A").map StoredChat.messages =
      some [userMsgA] ∧
    (runC2full.app.allChats.find? fun ch => ch.id == "A").map StoredChat.messages =
      some [userMsgA, finalAssistantMessage ctxA "Hello"] ∧
    ¬((runC2full.app.allChats.find? fun ch => ch.id == "A").map StoredChat.messages =
        (runC2switch.app.allChats.find? fun ch => ch.id == "A").map StoredChat.messages) := by
  decide

/-- C2 (witness): the amended theorem applied to the concrete post-switch
state with the late chunk `"lo"`. -/
theorem staleTurn_deltas_suppressed_finalization_commits_witness :
    (runTurn ctxA runC2switch (["lo"].map TurnEvent.chunk)).app = runC2switch.app :=
  (staleTurn_deltas_suppressed_finalization_commits ctxA runC2switch ["lo"] "A"
    (by decide) (by decide) (by decide)).1

/-- C3 (counterexample): folding the deltas `["Hel", "lo ", "world"]` does
produce the final text `"Hello world"`, but the turn emits two updates with
`streaming = false` — the `finally` block and the subsequent `finalAiMessage`
commit — not exactly one as claimed. -/
theorem streamFold_two_terminal_updates_counterexample :
    runC3.accumulatedRegularText = "Hello world" ∧
    (runC3.updates.filter fun u => !u.2).length = 2 ∧
    ¬((runC3.updates.filter fun u => !u.2).length = 1) := by
  decide

/-- C3 (amended): folding the deltas `["Hel", "lo ", "world"]` produces an
assistant message whose final text is `"Hello world"`; every update before
stream end carries `streaming = true` and the accumulated prefix, and stream
end emits exactly two updates with `streaming = false`, both carrying the
full text `"Hello world"` (the second is a re-commit of the identical
terminal state, so the terminal message state is reached exactly once). -/
theorem streamFold_hello_world_trace :
    runC3.updates =
      [("", true), ("Hel", true), ("Hello ", true), ("Hello world", true),
       ("Hello world", false), ("Hello world", false)] ∧
    runC3.app.messages = [userMsgA, finalAssistantMessage ctxA "Hello world"] ∧
    runC3.finished = true := by
  decide

/-- C4: when the stream errors after the delta `"Hel"` (error message
`"boom"`), the in-progress assistant message does end with `error = true` and
`streaming = false`, the banner shows the user-facing string
`"Error: boom"`, and the conversation store is untouched — but the message's
text is the preserved partial content `"Hel"`, not the error string: the
`finally` block runs after the `catch` block's early return and overwrites
the error text the `catch` block had just written. -/
theorem streamError_final_text_is_partial_not_error_string :
    runC4.app.messages.find? (fun m => m.id == "ai-1") =
      some { id := "ai-1", text := "Hel", sender := Sender.ai, isStreaming := some false
             isError := some true, thinkingDetails := thinkingA } ∧
    runC4.app.errorBanner = some "Error: boom" ∧
    runC4.app.allChats = runA0.app.allChats ∧
    runC4.finished = true ∧
    ¬(∃ m ∈ runC4.app.messages, m.id = "ai-1" ∧ m.text = "Error: boom") := by
  decide

/-- C5 (counterexample): calling `initializeChatSession` twice in a row with
identical arguments performs the rebuild (`ai.chats.create`) again on the
second call — the create counter reaches 2, not the claimed 1. -/
theorem initializeChatSession_rebuilds_on_second_call_counterexample :
    (initializeChatSession
        (initializeChatSession gsInitial "gemini-2.5-flash" (some []) (some 2)).1
        "gemini-2.5-flash" (some []) (some 2)).1.chatsCreateCalls = 2 ∧
    ¬((initializeChatSession
          (initializeChatSession gsInitial "gemini-2.5-flash" (some []) (some 2)).1
          "gemini-2.5-flash" (some []) (some 2)).1.chatsCreateCalls = 1) := by
  decide

/-- C5 (amended): `initializeChatSession` is idempotent in its resulting
state but not in work: a second call with identical `(model, history,
thinkingBudget)` returns the same session and leaves the session singleton
equal, while performing one more `ai.chats.create` rebuild. -/
theorem initializeChatSession_idempotent_state_not_work
    (st : GeminiServiceState) (modelName : String)
    (history : Option (List ChatMessageHistoryItem)) (budget : Option Int) :
    (initializeChatSession (initializeChatSession st modelName history budget).1
        modelName history budget).2 =
      (initializeChatSession st modelName history budget).2 ∧
    (initializeChatSession (initializeChatSession st modelName history budget).1
        modelName history budget).1.chatSessionInstance =
      (initializeChatSession st modelName history budget).1.chatSessionInstance ∧
    (initializeChatSession (initializeChatSession st modelName history budget).1
        modelName history budget).1.chatsCreateCalls =
      (initializeChatSession st modelName history budget).1.chatsCreateCalls + 1 :=
  ⟨rfl, rfl, rfl⟩

/-- C6 (counterexample): the model name `"my-custom-model"` is not in the
thinking-supported set, yet `initializeChatSession` coerces it to the default
model `gemini-2.5-flash` and then attaches the thinking budget to the request
configuration. -/
theorem unknown_model_coerced_gets_thinking_budget_counterexample :
    (initializeChatSession gsInitial "my-custom-model" none (some 3)).2.config.thinkingConfig =
      some 3 ∧
    "my-custom-model" ∉ THINKING_CONFIG_SUPPORTED_MODELS ∧
    (initializeChatSession gsInitial "my-custom-model" none (some 3)).2.model =
      "gemini-2.5-flash" := by
  decide

/-- C6 (amended): the streaming gateway request omits the thinking budget for
every model name outside the thinking-supported set and passes the budget
unchanged for `gemini-2.5-flash`; `initializeChatSession` does the same for
every *available* model name outside the supported set (unknown names are
first coerced to the default model `gemini-2.5-flash` and then receive the
budget). -/
theorem thinking_budget_omitted_for_unsupported_models
    (message : String) (history : List ChatMessageHistoryItem) (st : GeminiServiceState)
    (m : String) (b : Int) :
    (m ∉ THINKING_CONFIG_SUPPORTED_MODELS →
      (sendMessageToChatStreamRequest message history m b).config.thinkingConfig = none) ∧
    (sendMessageToChatStreamRequest message history "gemini-2.5-flash" b).config.thinkingConfig =
      some b ∧
    (m ∈ AVAILABLE_CHAT_MODELS → m ∉ THINKING_CONFIG_SUPPORTED_MODELS →
      (initializeChatSession st m none (some b)).2.config.thinkingConfig = none) ∧
    (initializeChatSession st "gemini-2.5-flash" none (some b)).2.config.thinkingConfig =
      some b := by
  refine ⟨?_, ?_, ?_, ?_⟩
  · intro hm
    have hne : m ≠ "gemini-2.5-flash" := by
      intro h
      exact hm (by rw [h]; decide)
    simp [sendMessageToChatStreamRequest, hne]
  · simp [sendMessageToChatStreamRequest]
  · intro hav hm
    have hne : m ≠ "gemini-2.5-flash" := by
      intro h
      exact hm (by rw [h]; decide)
    have hav2 : m = "gemini-2.5-pro" ∨ m = "gemini-2.5-flash-lite" := by
      simp only [AVAILABLE_CHAT_MODELS, List.mem_cons, List.mem_singleton,
        List.not_mem_nil, or_false] at hav
      rcases hav with h | h | h
      · exact absurd h hne
      · exact Or.inl h
      · exact Or.inr h
    rcases hav2 with rfl | rfl <;>
      simp [initializeChatSession, AVAILABLE_CHAT_MODELS, DEFAULT_CHAT_MODEL]
  · simp [initializeChatSession, AVAILABLE_CHAT_MODELS, DEFAULT_CHAT_MODEL]

/-- C6 (witness): the amended theorem at the unsupported available model
`gemini-2.5-pro` with budget 3. -/
theorem thinking_budget_omitted_for_unsupported_models_witness :
    (sendMessageToChatStreamRequest "hi" [] "gemini-2.5-pro" 3).config.thinkingConfig = none ∧
    (initializeChatSession gsInitial "gemini-2.5-pro" none (some 3)).2.config.thinkingConfig =
      none :=
  ⟨(thinking_budget_omitted_for_unsupported_models "hi" [] gsInitial "gemini-2.5-pro" 3).1
      (by decide),
   (thinking_budget_omitted_for_unsupported_models "hi" [] gsInitial "gemini-2.5-pro" 3).2.2.1
      (by decide) (by decide)⟩

/-- C9: with the API credential configured, a `null`/`undefined` message list
and the empty message list both make `generateChatTitleWithAI` return exactly
`"New Chat"` without issuing any backend request, whatever the backend would
have answered. -/
theorem empty_messages_title_is_new_chat (welcomeBase : String) (outcome : TitleOutcome) :
    generateChatTitleWithAI true none welcomeBase outcome =
      { result := Except.ok "New Chat", backendCalled := false } ∧
    generateChatTitleWithAI true (some []) welcomeBase outcome =
      { result := Except.ok "New Chat", backendCalled := false } :=
  ⟨rfl, rfl⟩

/-- C7: whenever the title request fails — the prompt is blocked, the call
throws, or the response is empty/whitespace — and the first user message of
the conversation splits into more than 4 space-separated words,
`generateChatTitleWithAI` resolves (never throws) to the fallback title: the
first 4 words joined by spaces followed by `...`. -/
theorem title_fallback_first_four_words
    (msgs : List ChatMessageContent) (welcomeBase : String) (outcome : TitleOutcome)
    (m : ChatMessageContent)
    (hfind : msgs.find? (fun x => x.sender == Sender.user) = some m)
    (htext : m.text ≠ "")
    (hwords : 4 < (splitOnSpace (jsTrimSeq m.text.data)).length)
    (hfail : outcome = TitleOutcome.blocked ∨ (∃ e, outcome = TitleOutcome.apiError e) ∨
      (∃ t, outcome = TitleOutcome.ok t ∧ jsTrimSeq t.data = [])) :
    (generateChatTitleWithAI true (some msgs) welcomeBase outcome).result =
      Except.ok
        (String.mk (joinWithSpace ((splitOnSpace (jsTrimSeq m.text.data)).take 4)) ++ "...") := by
  have hmem : m ∈ msgs := List.mem_of_find?_eq_some hfind
  have hpred0 := List.find?_some hfind
  have hpred : (m.sender == Sender.user) = true := by simpa using hpred0
  have hlen : ¬(msgs.length = 0) := by
    intro h
    rw [List.length_eq_zero.mp h] at hmem
    exact absurd hmem (List.not_mem_nil m)
  have hfilter : m ∈ msgs.filter (fun msg =>
      if msg.sender == Sender.user then true
      else
        msg.sender == Sender.ai
          && !(strStartsWith msg.text "AI is viewing the image")
          && !(strStartsWith msg.text "NeuraMorphosis AI is thinking deeply...")
          && !(strStartsWith msg.text welcomeBase)) := by
    refine List.mem_filter.mpr ⟨hmem, ?_⟩
    simp [hpred]
  have histne : ¬((mapAppMessagesToGeminiHistoryForTitle msgs welcomeBase).length = 0) := by
    intro h
    rw [mapAppMessagesToGeminiHistoryForTitle, List.length_map, List.length_eq_zero] at h
    rw [h] at hfilter
    exact absurd hfilter (List.not_mem_nil m)
  have hfallback : generateFallbackTitle msgs =
      String.mk (joinWithSpace ((splitOnSpace (jsTrimSeq m.text.data)).take 4)) ++ "..." := by
    simp only [generateFallbackTitle, hfind]
    rw [if_neg htext, Nat.min_eq_right (Nat.le_of_lt hwords), if_pos hwords]
  simp only [generateChatTitleWithAI]
  rw [if_neg (by decide : ¬((!true) = true)), if_neg hlen, if_neg histne]
  rcases hfail with rfl | ⟨e, rfl⟩ | ⟨t, rfl, ht⟩
  · simp [hfallback]
  · simp [hfallback]
  · simp [ht, hfallback]

/-- C7 (witness): the conversation whose only user message is
`"Plan my trip to Rome"`, with the gateway failing, gets the committed title
`"Plan my trip to..."`. -/
theorem title_fallback_first_four_words_witness :
    (generateChatTitleWithAI true (some [tripMsg]) INITIAL_AI_WELCOME_TEXT_BASE
        (TitleOutcome.apiError "network down")).result = Except.ok "Plan my trip to..." := by
  have h := title_fallback_first_four_words [tripMsg] INITIAL_AI_WELCOME_TEXT_BASE
    (TitleOutcome.apiError "network down") tripMsg (by decide) (by decide) (by decide)
    (Or.inr (Or.inl ⟨"network down", rfl⟩))
  have h2 : String.mk (joinWithSpace ((splitOnSpace (jsTrimSeq tripMsg.text.data)).take 4)) ++
      "..." = "Plan my trip to..." := by decide
  rw [h, h2]

/-- C8 (counterexample): after exercising every save operation the
persistence adapter offers — and even planting hypothetical storage keys for
a thinking budget and a selected model — the app restores the four persisted
preferences but initializes the thinking budget to 0 and the model to the
default: no load operation restores them, so they are not persisted
preferences. -/
theorem model_and_budget_not_persisted_counterexample :
    (appInitialPrefs fullySavedStore).baseTheme = "light" ∧
    (appInitialPrefs fullySavedStore).accentTheme = "blue" ∧
    (appInitialPrefs fullySavedStore).customCSS = "my-css" ∧
    (appInitialPrefs fullySavedStore).targetLanguage = "fr" ∧
    (appInitialPrefs (setItem fullySavedStore "neuramorphosis_thinkingBudget" "5")).thinkingBudget
      = 0 ∧
    ¬((appInitialPrefs (setItem fullySavedStore "neuramorphosis_thinkingBudget" "5")).thinkingBudget
        = 5) ∧
    (appInitialPrefs
        (setItem fullySavedStore "neuramorphosis_selectedModel" "gemini-2.5-pro")).currentChatModel
      = "gemini-2.5-flash" := by
  decide

/-- C8 (amended): base theme, accent theme, custom style text and target
language are each independently saved and restored — saving one changes only
its own restored field, with the documented default substituted for an empty
saved value — and an empty storage yields all documented defaults; the
thinking budget and selected model, however, are not persisted: the restored
state always starts them at 0 and `gemini-2.5-flash`. -/
theorem preferences_roundtrip_and_defaults (s : Store) (t : String) :
    appInitialPrefs (saveBaseTheme s t) =
      { appInitialPrefs s with baseTheme := if t = "" then "dark" else t } ∧
    appInitialPrefs (saveAccentTheme s t) =
      { appInitialPrefs s with accentTheme := if t = "" then "default" else t } ∧
    appInitialPrefs (saveCustomCSS s t) =
      { appInitialPrefs s with customCSS := if t = "" then "" else t } ∧
    appInitialPrefs (saveTargetLanguage s t) =
      { appInitialPrefs s with targetLanguage := if t = "" then "none" else t } ∧
    appInitialPrefs emptyStore =
      { thinkingBudget := 0, currentChatModel := "gemini-2.5-flash", baseTheme := "dark"
        accentTheme := "default", customCSS := "", targetLanguage := "none" } ∧
    (appInitialPrefs s).thinkingBudget = 0 ∧
    (appInitialPrefs s).currentChatModel = "gemini-2.5-flash" := by
  refine ⟨?_, ?_, ?_, ?_, ?_, rfl, rfl⟩ <;>
    simp [appInitialPrefs, saveBaseTheme, saveAccentTheme, saveCustomCSS, saveTargetLanguage,
      loadBaseTheme, loadAccentTheme, loadCustomCSS, loadTargetLanguage, setItem, getItem,
      jsOrElse, emptyStore, BASE_THEME_KEY, ACCENT_THEME_KEY, CUSTOM_CSS_KEY,
      TARGET_LANGUAGE_KEY, DEFAULT_CHAT_MODEL, DEFAULT_TARGET_LANGUAGE]

/-- C10: every load operation of the persistence adapter is total with its
documented default: a missing chat list, and a present chat list on which
`JSON.parse` throws, both yield the empty list; the other loads yield `null`
or the empty string when their key is absent. -/
theorem load_operations_total_with_defaults (s : Store)
    (decode : String → Option (List StoredChat)) :
    (getItem s ALL_CHATS_KEY = none → loadChats s decode = []) ∧
    (∀ j, getItem s ALL_CHATS_KEY = some j → decode j = none → loadChats s decode = []) ∧
    (getItem s ACTIVE_CHAT_ID_KEY = none → loadActiveChatId s = none) ∧
    (getItem s CUSTOM_CSS_KEY = none → loadCustomCSS s = "") ∧
    (getItem s BASE_THEME_KEY = none → loadBaseTheme s = none) ∧
    (getItem s ACCENT_THEME_KEY = none → loadAccentTheme s = none) ∧
    (getItem s TARGET_LANGUAGE_KEY = none → loadTargetLanguage s = none) := by
  refine ⟨?_, ?_, ?_, ?_, ?_, ?_, ?_⟩
  · intro h; simp [loadChats, h]
  · intro j hj hd
    simp only [loadChats, hj]
    by_cases hje : j = ""
    · simp [hje]
    · simp [hje, hd]
  · intro h; simp [loadActiveChatId, h]
  · intro h; simp [loadCustomCSS, jsOrElse, h]
  · intro h; simp [loadBaseTheme, h]
  · intro h; simp [loadAccentTheme, h]
  · intro h; simp [loadTargetLanguage, h]

/-- C10 (witness): the totality theorem applied to an empty storage and to a
storage whose chat list is not valid JSON. -/
theorem load_operations_total_with_defaults_witness :
    loadChats badJsonStore failDecode = [] ∧
    loadChats emptyStore failDecode = [] ∧
    loadActiveChatId emptyStore = none ∧
    loadCustomCSS emptyStore = "" ∧
    loadBaseTheme emptyStore = none :=
  ⟨(load_operations_total_with_defaults badJsonStore failDecode).2.1 "not-json" (by decide) rfl,
   (load_operations_total_with_defaults emptyStore failDecode).1 rfl,
   (load_operations_total_with_defaults emptyStore failDecode).2.2.1 rfl,
   (load_operations_total_with_defaults emptyStore failDecode).2.2.2.1 rfl,
   (load_operations_total_with_defaults emptyStore failDecode).2.2.2.2.1 rfl⟩
